import Mathlib

/-!
Verification development for the repository source file `src/Linkedin-script.py`.

The script drives one shared Selenium browser session behind a small Flask
surface with two routes, `/scrape` and `/comment`.  The Lean definitions below
are a shallow embedding of that script: pure data flow is translated directly,
and the interaction with the outside world (the page shown by the browser, the
success of a launch, the success of a bounded wait) is abstracted into explicit
world records that each function consumes.  Side effects of the diagnostics
sink `dump_debug` are made visible as the list of tags it persisted, and the
one piece of mutable global state, the `driver` handle, is threaded as a
boolean flag (set iff the Python global is not `None`).

Conventions:
* time is discrete; one unit is one 0.5 second poll of `wait_for_any`, so a
  timeout of `t` seconds gives `2 * t` poll iterations;
* a page is described by which XPath expressions match at a given instant
  (`find : Nat -> String -> Bool`) or by the list of post cards an expression
  returns (`Page` below);
* Python exceptions that the script does not catch are modelled with
  `Except PyErr`, so an `Except.error` outcome is an unhandled exception
  escaping to Flask.
-/

namespace LinkedinScript

/-- XPath candidate lists for post containers, lines 36-40 of the source. -/
def POST_CONTAINER_XPATHS : List String :=
  ["//div[@data-urn and .//span[contains(@class,\x27update-components-actor__name\x27)]]",
   "//div[@data-urn and .//a[contains(@href,\x27/in/\x27)]]",
   "//div[@data-urn]"]

/-- Author XPath candidates, lines 42-45 of the source. -/
def AUTHOR_XPATHS : List String :=
  [".//span[contains(@class,\x27update-components-actor__name\x27)]",
   ".//a[contains(@href,\x27/in/\x27)][1]"]

/-- Text XPath candidates, lines 47-50 of the source. -/
def TEXT_XPATHS : List String :=
  [".//div[contains(@class,\x27update-components-text\x27)]//span[@dir=\x27ltr\x27]",
   ".//span[@dir=\x27ltr\x27]"]

/-- Signals that the feed is authenticated, lines 126-130 of the source. -/
def LOGIN_OK : List String :=
  ["//input[contains(@aria-label,\x27Search\x27)]",
   "//button[contains(@aria-label,\x27Start a post\x27)]",
   "//*[contains(text(),\x27Start a post\x27)]"]

/-- Signals of the interactive login page, lines 132-135 of the source. -/
def LOGIN_PAGE : List String :=
  ["//input[@name=\x27session_key\x27]",
   "//input[@name=\x27session_password\x27]"]

/-- Signals of a security checkpoint, lines 137-140 of the source. -/
def CHECKPOINT : List String :=
  ["//*[contains(translate(.,\x27VERIFY\x27,\x27verify\x27),\x27verify\x27)]",
   "//*[contains(translate(.,\x27CHALLENGE\x27,\x27challenge\x27),\x27challenge\x27)]"]

/-- Model of `dump_debug` (lines 55-61): it persists one artifact pair tagged
`tag`, but returns immediately without persisting anything when the global
`driver` is `None`.  The returned list is the sequence of tags dumped. -/
def dump_debug (driver : Bool) (tag : String) : List String :=
  if driver then [tag] else []

/-- Poll loop of `wait_for_any` (lines 64-71): at each instant `t` it checks
every XPath of `xpaths` against the page (`find t xp`), returning as soon as
one matches; `fuel` is the number of 0.5 second iterations left.  The result
pairs the boolean outcome with the instant at which the loop stopped. -/
def waitAux (find : Nat → String → Bool) (xpaths : List String) :
    Nat → Nat → Bool × Nat
  | 0, t => (false, t)
  | fuel + 1, t =>
    if xpaths.any (fun xp => find t xp) then (true, t)
    else waitAux find xpaths fuel (t + 1)

/-- Model of `wait_for_any(xpaths, timeout)` (lines 64-71): a `timeout` of `s`
seconds with a 0.5 second sleep gives `2 * s` poll iterations starting at
instant `t0`. -/
def wait_for_any (find : Nat → String → Bool) (xpaths : List String)
    (timeout t0 : Nat) : Bool × Nat :=
  waitAux find xpaths (2 * timeout) t0

/-- The environment `initialize_browser` runs against: whether the
`LINKEDIN_SESSION_ID` credential is configured, whether `webdriver.Chrome`
succeeds, whether the navigation and cookie injection of lines 112-124
succeed, and which XPaths the feed page matches at each instant. -/
structure InitWorld where
  hasSessionId : Bool
  launchOk : Bool
  postLaunchOk : Bool
  find : Nat → String → Bool

/-- Outcome of one `initialize_browser` call: the returned boolean, the state
of the global `driver` afterwards (`true` iff not `None`), the diagnostics
tags dumped during the call, and how many times `webdriver.Chrome` was
invoked. -/
structure InitResult where
  ok : Bool
  driver : Bool
  tags : List String
  launches : Nat
  deriving DecidableEq

/-- The `wait_for_any(LOGIN_OK)` call of line 142, 25 second timeout,
starting the detection clock at instant 0. -/
def loginOkWait (w : InitWorld) : Bool × Nat :=
  wait_for_any w.find LOGIN_OK 25 0

/-- The `wait_for_any(CHECKPOINT, 3)` call of line 146, entered at the
instant where the login poll stopped. -/
def checkpointWait (w : InitWorld) : Bool × Nat :=
  wait_for_any w.find CHECKPOINT 3 (loginOkWait w).2

/-- The `wait_for_any(LOGIN_PAGE, 3)` call of line 150, entered at the
instant where the checkpoint poll stopped. -/
def loginPageWait (w : InitWorld) : Bool × Nat :=
  wait_for_any w.find LOGIN_PAGE 3 (checkpointWait w).2

/-- Model of `initialize_browser` (lines 85-160).  `driver0` is the value of
the global `driver` flag when the call starts.  Branches, in source order:
line 88 short-circuit on an existing driver; line 91 missing credential (no
launch, no dump); an exception inside `webdriver.Chrome` itself (caught at
line 157, but `dump_debug` is a no-op because `driver` is still `None`); an
exception during navigation or cookie injection after the driver was
assigned (caught at line 157, dump tagged `init_failed`); then the state
detection of lines 142-155. -/
def initialize_browser (w : InitWorld) (driver0 : Bool) : InitResult :=
  if driver0 then ⟨true, true, [], 0⟩
  else if w.hasSessionId = false then ⟨false, false, [], 0⟩
  else if w.launchOk = false then ⟨false, false, dump_debug false "init_failed", 1⟩
  else if w.postLaunchOk = false then ⟨false, true, dump_debug true "init_failed", 1⟩
  else if (loginOkWait w).1 then ⟨true, true, [], 1⟩
  else if (checkpointWait w).1 then ⟨false, true, dump_debug true "checkpoint", 1⟩
  else if (loginPageWait w).1 then ⟨false, true, dump_debug true "login_page", 1⟩
  else ⟨false, true, dump_debug true "unknown_state", 1⟩

/-- Exhaustive list of the results `initialize_browser` can produce. -/
lemma initialize_browser_shape (w : InitWorld) (d : Bool) :
    initialize_browser w d = ⟨true, true, [], 0⟩ ∨
    initialize_browser w d = ⟨false, false, [], 0⟩ ∨
    initialize_browser w d = ⟨false, false, [], 1⟩ ∨
    initialize_browser w d = ⟨false, true, ["init_failed"], 1⟩ ∨
    initialize_browser w d = ⟨true, true, [], 1⟩ ∨
    initialize_browser w d = ⟨false, true, ["checkpoint"], 1⟩ ∨
    initialize_browser w d = ⟨false, true, ["login_page"], 1⟩ ∨
    initialize_browser w d = ⟨false, true, ["unknown_state"], 1⟩ := by
  unfold initialize_browser
  repeat' split
  all_goals simp [dump_debug]

/-- A call that returns `true` leaves the driver assigned and dumps nothing. -/
lemma initialize_browser_ok (w : InitWorld) (d : Bool)
    (h : (initialize_browser w d).ok = true) :
    (initialize_browser w d).driver = true ∧ (initialize_browser w d).tags = [] := by
  rcases initialize_browser_shape w d with h' | h' | h' | h' | h' | h' | h' | h' <;>
    rw [h'] at h ⊢ <;> simp_all

/-- A failed call that leaves the driver assigned has dumped diagnostics. -/
lemma initialize_browser_fail_dump (w : InitWorld) (d : Bool)
    (hok : (initialize_browser w d).ok = false)
    (hdr : (initialize_browser w d).driver = true) :
    (initialize_browser w d).tags ≠ [] := by
  rcases initialize_browser_shape w d with h' | h' | h' | h' | h' | h' | h' | h' <;>
    rw [h'] at hok hdr ⊢ <;> simp_all

/-- A world with a credential, a working launch, and a page that never matches
any signal XPath: detection falls through to the unknown terminal state. -/
def w0 : InitWorld := ⟨true, true, true, fun _ _ => false⟩

/-- C1 counterexample: the first call on `w0` launches a browser (the
`launches` count is 1), ends in a non-Authenticated terminal state (dump tag
`unknown_state`) and returns `false`, yet leaves the driver assigned; the
next call then short-circuits to `true` with zero launches instead of
re-running the launch, cookie-injection and state-detection sequence, because
line 88 tests only `if driver:`, not the authentication outcome. -/
theorem init_no_rerun_cex :
    initialize_browser w0 false = ⟨false, true, ["unknown_state"], 1⟩ ∧
    initialize_browser w0 true = ⟨true, true, [], 0⟩ :=
  ⟨rfl, rfl⟩

/-- C1 amended: `initialize_browser` short-circuits (returns `true`
immediately, performing no new launch) exactly when a previous call assigned
the driver handle, i.e. whenever `webdriver.Chrome` previously succeeded,
regardless of the terminal authentication state.  In particular a call that
reached Authenticated leaves the handle assigned, so the next call is a
no-op returning `true`; but so does a call that launched and ended in a
non-Authenticated terminal state.  A full re-run (with a new launch) happens
only when the handle was never assigned. -/
theorem init_short_circuit_amended :
    (∀ w : InitWorld, initialize_browser w true = ⟨true, true, [], 0⟩) ∧
    (∀ w w' : InitWorld, (initialize_browser w false).driver = true →
      initialize_browser w' (initialize_browser w false).driver = ⟨true, true, [], 0⟩) ∧
    (∀ w : InitWorld, (initialize_browser w false).ok = true →
      (initialize_browser w false).driver = true) ∧
    (∀ w : InitWorld, w.hasSessionId = true →
      (initialize_browser w false).launches = 1) := by
  refine ⟨fun w => by unfold initialize_browser; simp, ?_, ?_, ?_⟩
  · intro w w' h
    rw [h]
    unfold initialize_browser
    simp
  · intro w h
    exact (initialize_browser_ok w false h).1
  · intro w h
    unfold initialize_browser
    simp only [if_neg Bool.false_ne_true]
    rw [h]
    repeat' split
    all_goals simp_all

/-- C1 amended witness: on the concrete world `w0`, the failed first call
leaves the driver assigned and the second call short-circuits. -/
theorem init_short_circuit_amended_w :
    (initialize_browser w0 false).driver = true ∧
    initialize_browser w0 (initialize_browser w0 false).driver = ⟨true, true, [], 0⟩ :=
  ⟨rfl, init_short_circuit_amended.2.1 w0 w0 rfl⟩

/-- C4: with a credential and a successful launch and navigation, state
detection evaluates the signal groups in fixed priority order: the
Authenticated signals are polled first with the long 25 second window
starting at instant 0; only if they never match are the CheckpointChallenge
signals polled for 3 seconds, then the LoginPageDetected signals for 3
seconds; if none matched the state is unknown.  The call returns `true`
exactly when the Authenticated group matched, and every other terminal state
returns `false` after one diagnostics dump with a distinguishing tag. -/
theorem detection_priority (w : InitWorld)
    (h1 : w.hasSessionId = true) (h2 : w.launchOk = true)
    (h3 : w.postLaunchOk = true) :
    ((initialize_browser w false).ok = true ↔ (loginOkWait w).1 = true) ∧
    ((loginOkWait w).1 = true →
      initialize_browser w false = ⟨true, true, [], 1⟩) ∧
    ((loginOkWait w).1 = false → (checkpointWait w).1 = true →
      initialize_browser w false = ⟨false, true, ["checkpoint"], 1⟩) ∧
    ((loginOkWait w).1 = false → (checkpointWait w).1 = false →
      (loginPageWait w).1 = true →
      initialize_browser w false = ⟨false, true, ["login_page"], 1⟩) ∧
    ((loginOkWait w).1 = false → (checkpointWait w).1 = false →
      (loginPageWait w).1 = false →
      initialize_browser w false = ⟨false, true, ["unknown_state"], 1⟩) := by
  unfold initialize_browser
  simp only [h1, h2, h3, if_neg Bool.false_ne_true]
  by_cases ha : (loginOkWait w).1 = true <;>
    by_cases hc : (checkpointWait w).1 = true <;>
      by_cases hl : (loginPageWait w).1 = true <;>
        simp_all [dump_debug]

/-- C4 witness: on the concrete world `w0` no signal group ever matches, so
detection walks through all three groups and ends in the unknown state. -/
theorem detection_priority_w :
    (loginOkWait w0).1 = false ∧ (checkpointWait w0).1 = false ∧
    (loginPageWait w0).1 = false ∧
    initialize_browser w0 false = ⟨false, true, ["unknown_state"], 1⟩ :=
  ⟨rfl, rfl, rfl, (detection_priority w0 rfl rfl rfl).2.2.2.2 rfl rfl rfl⟩

/-- One rendered post container, as the scraper reads it: the value of its
`data-urn` attribute (`none` models `get_attribute` returning `None`), and,
for each candidate XPath of `AUTHOR_XPATHS` and `TEXT_XPATHS` in order, the
stripped text of the elements that XPath matches inside the card. -/
structure Card where
  urn : Option String
  authorEls : List (List String)
  textEls : List (List String)
  deriving DecidableEq

/-- One harvested post, the dictionary built at lines 202-206. -/
structure Post where
  author : String
  text : String
  url : String
  deriving DecidableEq

/-- The canonical post URL derived from the identifier (line 205). -/
def canonicalUrl (urn : String) : String :=
  "https://www.linkedin.com/feed/update/" ++ urn ++ "/"

/-- Python `str.strip()`: remove leading and trailing whitespace. -/
def pyStrip (s : String) : String :=
  ⟨((s.data.dropWhile Char.isWhitespace).reverse.dropWhile Char.isWhitespace).reverse⟩

/-- First text produced by the candidate generator of lines 190-200: the
candidates are tried in order, every matched element of a candidate is
yielded, and the first one wins; the default is the empty string. -/
def firstElText (els : List (List String)) : String :=
  (els.flatten.head?.map pyStrip).getD ""

/-- The post dictionary appended for a card whose identifier is `urn`. -/
def mkPost (c : Card) (urn : String) : Post :=
  ⟨firstElText c.authorEls, firstElText c.textEls, canonicalUrl urn⟩

/-- The deduplication guard of line 186: a card is processed only when its
`data-urn` attribute is truthy, i.e. neither `None` nor empty. -/
def validUrn (c : Card) : Option String :=
  match c.urn with
  | none => none
  | some u => if u = "" then none else some u

/-- The page behaviour a harvest call runs against: `initialMatch xp` is what
`find_elements` returns for a container XPath when the active locator is
chosen (lines 172-175), and `render xp i` is what the chosen locator returns
on the `i`-th pass of the accumulation loop (the page grows as `human_scroll`
runs between passes). -/
structure Page where
  initialMatch : String → List Card
  render : String → Nat → List Card

/-- The active container locator (lines 172-175): the first candidate XPath
that currently matches at least one element. -/
def chosenXpath (pg : Page) : Option String :=
  POST_CONTAINER_XPATHS.find? (fun xp => !(pg.initialMatch xp).isEmpty)

/-- One full `for card in driver.find_elements(...)` pass of lines 184-209:
cards are processed in order; a card with a falsy or already seen identifier
is skipped; otherwise its post is appended and its identifier recorded, and
the pass breaks as soon as the accumulated count reaches `cap`. -/
def processPass (cap : Nat) : List Card → List Post → List String → List Post × List String
  | [], posts, seen => (posts, seen)
  | c :: rest, posts, seen =>
    match validUrn c with
    | none => processPass cap rest posts seen
    | some u =>
      if u ∈ seen then processPass cap rest posts seen
      else if cap ≤ (posts ++ [mkPost c u]).length then
        (posts ++ [mkPost c u], seen ++ [u])
      else processPass cap rest (posts ++ [mkPost c u]) (seen ++ [u])

/-- The `while len(posts) < max_posts` loop of lines 183-211, with a fuel
counter bounding how many passes we observe: `none` means the loop was still
running when the fuel ran out (the Python loop has no bound of its own), and
`some` is the value returned at line 213, the accumulation truncated to
`cap`.  `i` indexes the scroll pass, so the page seen by pass `i` is
`pg.render xp i`. -/
def scrapeLoop (pg : Page) (xp : String) (cap : Nat) :
    Nat → Nat → List Post → List String → Option (List Post)
  | 0, _, _, _ => none
  | fuel + 1, i, posts, seen =>
    if posts.length < cap then
      scrapeLoop pg xp cap fuel (i + 1)
        (processPass cap (pg.render xp i) posts seen).1
        (processPass cap (pg.render xp i) posts seen).2
    else some (posts.take cap)

/-- Model of `scrape_hashtag` (lines 166-213).  `drv` is the driver flag (it
gates `dump_debug`).  When no container XPath matches, the function dumps
with tag `no_posts` and returns the empty list (lines 177-179); otherwise it
runs the accumulation loop with the chosen locator.  The returned pair is
the post list and the tags dumped during the call. -/
def scrape_hashtag (pg : Page) (drv : Bool) (_hashtag : String)
    (max_posts : Nat) (fuel : Nat) : Option (List Post × List String) :=
  match chosenXpath pg with
  | none => some ([], dump_debug drv "no_posts")
  | some xp => (scrapeLoop pg xp max_posts fuel 0 [] []).map (fun ps => (ps, []))

/-- The cards the loop enumerates over passes `i, i+1, ..., i+k-1`. -/
def passCards (pg : Page) (xp : String) : Nat → Nat → List Card
  | _, 0 => []
  | i, k + 1 => pg.render xp i ++ passCards pg xp (i + 1) k

/-- The identifiers of a card stream in first-seen order, starting from an
already seen set: a card contributes its identifier the first time a truthy
value for it is encountered. -/
def dedupNewUrns : List Card → List String → List String
  | [], _ => []
  | c :: rest, seen =>
    match validUrn c with
    | none => dedupNewUrns rest seen
    | some u =>
      if u ∈ seen then dedupNewUrns rest seen
      else u :: dedupNewUrns rest (seen ++ [u])

/-- First-seen identifier order of a card stream. -/
def firstSeenUrns (cards : List Card) : List String :=
  dedupNewUrns cards []

/-- Taking exactly the length of the left part of an append yields it. -/
lemma take_append_full {α : Type} (X Y : List α) (n : Nat) (h : X.length = n) :
    (X ++ Y).take n = X := by
  rw [List.take_append_eq_append_take, h, Nat.sub_self, List.take_zero,
    List.append_nil, List.take_of_length_le (le_of_eq h)]

/-- Taking at least the length of the left part of an append keeps it whole. -/
lemma take_append_ge {α : Type} (X Y : List α) (n : Nat) (h : X.length ≤ n) :
    (X ++ Y).take n = X ++ Y.take (n - X.length) := by
  rw [List.take_append_eq_append_take, List.take_of_length_le h]

/-- Taking at most the length of the left part of an append stays inside it. -/
lemma take_append_le {α : Type} (X Y : List α) (n : Nat) (h : n ≤ X.length) :
    (X ++ Y).take n = X.take n := by
  rw [List.take_append_eq_append_take, Nat.sub_eq_zero_of_le h, List.take_zero,
    List.append_nil]

/-- First-seen deduplication splits over concatenation of card streams. -/
lemma dedupNewUrns_append (A B : List Card) :
    ∀ seen, dedupNewUrns (A ++ B) seen =
      dedupNewUrns A seen ++ dedupNewUrns B (seen ++ dedupNewUrns A seen) := by
  induction A with
  | nil => intro seen; simp [dedupNewUrns]
  | cons c rest ih =>
    intro seen
    cases hv : validUrn c with
    | none => simpa [dedupNewUrns, hv] using ih seen
    | some u =>
      by_cases hm : u ∈ seen
      · simpa [dedupNewUrns, hv, hm] using ih seen
      · simp only [List.cons_append, dedupNewUrns, hv, if_neg hm, List.append_eq]
        rw [ih (seen ++ [u])]
        simp [List.append_assoc]

/-- The `seen` set extended by a first-seen pass stays duplicate free. -/
lemma dedupNewUrns_nodup (cards : List Card) :
    ∀ seen : List String, seen.Nodup → (seen ++ dedupNewUrns cards seen).Nodup := by
  induction cards with
  | nil => intro seen h; simpa [dedupNewUrns] using h
  | cons c rest ih =>
    intro seen h
    cases hv : validUrn c with
    | none => simpa [dedupNewUrns, hv] using ih seen h
    | some u =>
      by_cases hm : u ∈ seen
      · simpa [dedupNewUrns, hv, hm] using ih seen h
      · have h2 : (seen ++ [u]).Nodup := by
          rw [List.nodup_append]
          refine ⟨h, List.nodup_singleton u, ?_⟩
          intro a ha hb
          simp only [List.mem_singleton] at hb
          subst hb
          exact hm ha
        have h3 := ih (seen ++ [u]) h2
        simp only [dedupNewUrns, hv, if_neg hm]
        simpa [List.append_assoc] using h3

/-- Posts and seen identifiers are appended in lockstep: at every point the
URLs of the accumulated posts are the canonical URLs of the seen list. -/
lemma processPass_lockstep (cap : Nat) (cards : List Card) :
    ∀ posts seen, posts.map Post.url = seen.map canonicalUrl →
      (processPass cap cards posts seen).1.map Post.url =
        (processPass cap cards posts seen).2.map canonicalUrl := by
  induction cards with
  | nil => intro posts seen h; simpa [processPass] using h
  | cons c rest ih =>
    intro posts seen h
    cases hv : validUrn c with
    | none => simpa [processPass, hv] using ih posts seen h
    | some u =>
      by_cases hm : u ∈ seen
      · simpa [processPass, hv, hm] using ih posts seen h
      · by_cases hbr : cap ≤ (posts ++ [mkPost c u]).length
        · simp only [processPass, hv, if_neg hm]
          rw [if_pos hbr]
          simp [h, mkPost]
        · simp only [processPass, hv, if_neg hm]
          rw [if_neg hbr]
          exact ih _ _ (by simp [h, mkPost])

/-- One pass extends the seen list by the first-seen identifiers of its
cards, cut at the number of posts still missing (the `break` of line 209). -/
lemma processPass_seen (cap : Nat) (cards : List Card) :
    ∀ posts seen, posts.length < cap →
      (processPass cap cards posts seen).2 =
        seen ++ (dedupNewUrns cards seen).take (cap - posts.length) := by
  induction cards with
  | nil => intro posts seen _; simp [processPass, dedupNewUrns]
  | cons c rest ih =>
    intro posts seen hlt
    cases hv : validUrn c with
    | none => simpa [processPass, dedupNewUrns, hv] using ih posts seen hlt
    | some u =>
      by_cases hm : u ∈ seen
      · simpa [processPass, dedupNewUrns, hv, hm] using ih posts seen hlt
      · by_cases hbr : cap ≤ (posts ++ [mkPost c u]).length
        · have hone : cap - posts.length = 1 := by
            simp only [List.length_append, List.length_singleton] at hbr
            omega
          simp only [processPass, hv, if_neg hm]
          rw [if_pos hbr]
          simp only [dedupNewUrns, hv, if_neg hm, hone]
          simp [List.take_succ_cons]
        · have h2 : (posts ++ [mkPost c u]).length < cap := by
            simp only [List.length_append, List.length_singleton] at hbr ⊢
            omega
          have hrec := ih (posts ++ [mkPost c u]) (seen ++ [u]) h2
          simp only [processPass, hv, if_neg hm]
          rw [if_neg hbr]
          rw [hrec]
          have hsub : cap - posts.length = (cap - (posts ++ [mkPost c u]).length) + 1 := by
            simp only [List.length_append, List.length_singleton]
            omega
          simp only [dedupNewUrns, hv, if_neg hm]
          rw [hsub, List.take_succ_cons]
          simp [List.append_assoc]

/-- The canonical URL determines the identifier. -/
lemma canonicalUrl_injective : Function.Injective canonicalUrl := by
  intro a b h
  have h2 := congrArg String.data h
  simp only [canonicalUrl, String.data_append] at h2
  have h3 := List.append_cancel_left (List.append_cancel_right h2)
  cases a with
  | mk da =>
    cases b with
    | mk db => exact congrArg String.mk (by simpa using h3)

/-- Main loop invariant of the harvest: whenever the accumulation loop of
lines 183-211 returns, the URLs of the returned posts are the canonical URLs
of the first `cap` first-seen identifiers of the card streams enumerated,
continuing from the `seen` list the loop started with. -/
lemma scrapeLoop_spec (pg : Page) (xp : String) (cap : Nat) :
    ∀ (fuel i : Nat) (posts : List Post) (seen : List String) (res : List Post),
      posts.map Post.url = seen.map canonicalUrl →
      posts.length ≤ cap →
      scrapeLoop pg xp cap fuel i posts seen = some res →
      ∃ k, res.map Post.url =
        ((seen ++ dedupNewUrns (passCards pg xp i k) seen).take cap).map canonicalUrl := by
  intro fuel
  induction fuel with
  | zero =>
    intro i posts seen res _ _ hrun
    simp [scrapeLoop] at hrun
  | succ f ih =>
    intro i posts seen res hlock hle hrun
    by_cases hlt : posts.length < cap
    · rw [scrapeLoop, if_pos hlt] at hrun
      have hseen := processPass_seen cap (pg.render xp i) posts seen hlt
      have hlock1 := processPass_lockstep cap (pg.render xp i) posts seen hlock
      have hsl : posts.length = seen.length := by
        have h4 := congrArg List.length hlock
        simpa using h4
      have hle1 : (processPass cap (pg.render xp i) posts seen).1.length ≤ cap := by
        have hl2 : (processPass cap (pg.render xp i) posts seen).1.length
            = (processPass cap (pg.render xp i) posts seen).2.length := by
          have h4 := congrArg List.length hlock1
          simpa using h4
        rw [hl2, hseen]
        simp only [List.length_append, List.length_take]
        omega
      obtain ⟨k, hk⟩ := ih (i + 1) _ _ res hlock1 hle1 hrun
      refine ⟨k + 1, ?_⟩
      rw [hk, hseen]
      have hsplit : passCards pg xp i (k + 1) = pg.render xp i ++ passCards pg xp (i + 1) k := rfl
      rw [hsplit, dedupNewUrns_append]
      congr 1
      by_cases hD : (dedupNewUrns (pg.render xp i) seen).length ≤ cap - posts.length
      · simp only [List.take_of_length_le hD]
        simp [List.append_assoc]
      · push_neg at hD
        have hXlen : (seen ++ (dedupNewUrns (pg.render xp i) seen).take
            (cap - posts.length)).length = cap := by
          simp only [List.length_append, List.length_take]
          omega
        rw [take_append_full _ _ _ hXlen]
        have hseenle : seen.length ≤ cap := by omega
        rw [take_append_ge _ _ _ hseenle]
        have hr : cap - seen.length ≤ (dedupNewUrns (pg.render xp i) seen).length := by
          omega
        rw [take_append_le _ _ _ hr]
        have hreq : cap - seen.length = cap - posts.length := by omega
        rw [hreq]
    · rw [scrapeLoop, if_neg hlt] at hrun
      have hres : posts.take cap = res := Option.some.inj hrun
      refine ⟨0, ?_⟩
      subst hres
      simp only [passCards, dedupNewUrns, List.append_nil]
      rw [List.map_take, List.map_take, hlock]

/-- C2: whenever `scrape_hashtag` returns, the result length is at most the
effective cap, no two posts share an identifier (their canonical URLs, which
embed the identifier injectively, are pairwise distinct), and the posts are
exactly the first `cap` identifiers in first-seen encounter order over the
card streams the loop enumerated — never re-sorted. -/
theorem scrape_hashtag_invariants (pg : Page) (drv : Bool) (ht : String)
    (cap fuel : Nat) (posts : List Post) (tags : List String)
    (hrun : scrape_hashtag pg drv ht cap fuel = some (posts, tags)) :
    posts.length ≤ cap ∧ (posts.map Post.url).Nodup ∧
    ∀ xp, chosenXpath pg = some xp →
      ∃ k, posts.map Post.url =
        ((firstSeenUrns (passCards pg xp 0 k)).take cap).map canonicalUrl := by
  unfold scrape_hashtag at hrun
  cases hch : chosenXpath pg with
  | none =>
    rw [hch] at hrun
    simp only [Option.some.injEq, Prod.mk.injEq] at hrun
    obtain ⟨h1, _⟩ := hrun
    subst h1
    refine ⟨by simp, by simp, ?_⟩
    intro xp hxp
    exact Option.noConfusion hxp
  | some xp0 =>
    rw [hch] at hrun
    rw [Option.map_eq_some'] at hrun
    obtain ⟨ps, hps, hpair⟩ := hrun
    injection hpair with h1 h2
    subst h1
    subst h2
    obtain ⟨k, hk⟩ := scrapeLoop_spec pg xp0 cap fuel 0 [] [] ps (by simp) (by simp) hps
    simp only [List.nil_append] at hk
    have hnodup : (ps.map Post.url).Nodup := by
      rw [hk]
      refine List.Nodup.map canonicalUrl_injective ?_
      refine List.Nodup.sublist (List.take_sublist _ _) ?_
      have h5 := dedupNewUrns_nodup (passCards pg xp0 0 k) [] (by simp)
      simpa using h5
    have hlen : ps.length ≤ cap := by
      have h6 := congrArg List.length hk
      simp only [List.length_map, List.length_take] at h6
      omega
    refine ⟨hlen, hnodup, ?_⟩
    intro xp hxp
    injection hxp with hxp'
    subst hxp'
    exact ⟨k, by simpa [firstSeenUrns] using hk⟩

/-- A page whose chosen locator always returns the same single card. -/
def onePostCard : Card := ⟨some "u1", [], []⟩

/-- Page behaviour used as a concrete input: every container XPath matches
the one card `onePostCard` and every pass renders exactly that card. -/
def onePostPage : Page := ⟨fun _ => [onePostCard], fun _ _ => [onePostCard]⟩

/-- The post harvested from `onePostCard`. -/
def onePost : Post := ⟨"", "", "https://www.linkedin.com/feed/update/u1/"⟩

/-- C2 witness: a concrete harvest on `onePostPage` with cap 1 terminates
with one post, and the invariants hold for it. -/
theorem scrape_hashtag_invariants_w :
    [onePost].length ≤ 1 ∧ ([onePost].map Post.url).Nodup ∧
    ∀ xp, chosenXpath onePostPage = some xp →
      ∃ k, [onePost].map Post.url =
        ((firstSeenUrns (passCards onePostPage xp 0 k)).take 1).map canonicalUrl :=
  scrape_hashtag_invariants onePostPage true "hiring" 1 2 [onePost] [] rfl

/-- Once the only rendered identifier has been seen, every further pass
leaves the loop state unchanged, so no amount of fuel lets it finish. -/
lemma stall_loop (xp : String) : ∀ fuel i,
    scrapeLoop onePostPage xp 2 fuel i [mkPost onePostCard "u1"] ["u1"] = none := by
  intro fuel
  induction fuel with
  | zero => intro i; rfl
  | succ f ih => intro i; exact ih (i + 1)

/-- C5: the harvest accumulation loop has no stall or attempt limit.  On the
page behaviour `onePostPage` only one distinct identifier is ever rendered
while the requested cap is 2, and at least one container matches the chosen
locator; the loop of lines 183-211 then never terminates: no fuel bound
makes `scrape_hashtag` return. -/
theorem harvest_no_stall_limit : ∀ fuel,
    scrape_hashtag onePostPage true "hiring" 2 fuel = none := by
  intro fuel
  obtain ⟨xp, hxp⟩ : ∃ xp, chosenXpath onePostPage = some xp := ⟨_, rfl⟩
  unfold scrape_hashtag
  rw [hxp]
  cases fuel with
  | zero => rfl
  | succ f =>
    show (scrapeLoop onePostPage xp 2 f 1 [mkPost onePostCard "u1"] ["u1"]).map
      (fun ps => (ps, ([] : List String))) = none
    rw [stall_loop xp f 1]
    rfl

/-- A JSON value as decoded by `request.get_json()`.  Floating point numbers
are left out of the model; every claim below is settled on the remaining
values. -/
inductive JsonVal where
  | jint (z : Int)
  | jstr (s : String)
  | jbool (b : Bool)
  | jnull
  | jlist (xs : List JsonVal)
  | jobj (fields : List (String × JsonVal))

/-- Python truthiness of a decoded JSON value, as tested by the
`request.get_json() or {}` of line 224. -/
def jsonTruthy : JsonVal → Bool
  | .jint z => !(z == 0)
  | .jstr s => !(s == "")
  | .jbool b => b
  | .jnull => false
  | .jlist xs => !xs.isEmpty
  | .jobj f => !f.isEmpty

/-- Dictionary lookup, `data.get(key)` / `data[key]` on a decoded object. -/
def lookupField (f : List (String × JsonVal)) (k : String) : Option JsonVal :=
  (f.find? (fun p => p.1 == k)).map (fun p => p.2)

/-- Python `str()` of a decoded JSON value (line 226).  The exact rendering
of composite values is abbreviated; no claim depends on it. -/
def pyStr : JsonVal → String
  | .jint z => toString z
  | .jstr s => s
  | .jbool b => if b then "True" else "False"
  | .jnull => "None"
  | .jlist _ => "[...]"
  | .jobj _ => "\x7b...\x7d"

/-- The hashtag normalisation of line 226: strip leading hash marks, then
surrounding whitespace. -/
def normalizeHashtag (s : String) : String :=
  pyStrip ⟨s.data.dropWhile (fun ch => ch == '#')⟩

/-- Accumulate the value of a decimal digit run; `none` when a non-digit
appears. -/
def digitsVal : List Char → Nat → Option Nat
  | [], acc => some acc
  | c :: rest, acc =>
    if c.isDigit then digitsVal rest (acc * 10 + (c.toNat - 48)) else none

/-- Python `int()` on a string: surrounding whitespace is ignored, an
optional sign is followed by at least one decimal digit; anything else
raises (`none`). -/
def pyIntOfString (s : String) : Option Int :=
  match (pyStrip s).data with
  | [] => none
  | '-' :: rest => if rest.isEmpty then none else (digitsVal rest 0).map (fun n => -(n : Int))
  | '+' :: rest => if rest.isEmpty then none else (digitsVal rest 0).map (fun n => (n : Int))
  | cs => (digitsVal cs 0).map (fun n => (n : Int))

/-- Python `int()` applied to a decoded JSON value (line 229): integers pass
through, numeric strings parse, booleans coerce to 0 or 1, and everything
else raises (`none`). -/
def coerce_int : JsonVal → Option Int
  | .jint z => some z
  | .jstr s => pyIntOfString s
  | .jbool b => some (if b then 1 else 0)
  | .jnull => none
  | .jlist _ => none
  | .jobj _ => none

/-- The `max_posts` value after the `try`/`except` of lines 228-231: the
field default is 5, and any failing coercion falls back to 5. -/
def maxPostsOf : Option JsonVal → Int
  | none => 5
  | some v => (coerce_int v).getD 5

/-- The effective cap passed to the harvest: the hard safety clamp of line
234 applied to the coerced `max_posts` field. -/
def effectiveMaxPosts (mp : Option JsonVal) : Int :=
  max 1 (min (maxPostsOf mp) 25)

/-- A Python exception escaping a route handler uncaught. -/
inductive PyErr where
  | keyError (k : String)
  | typeError
  | attributeError
  | badRequest
  | navError
  deriving DecidableEq

/-- The JSON body shapes the routes build with `jsonify`: an object with an
`error` key, an object with a `status` key, or the harvested post array. -/
inductive RespBody where
  | errorMsg (msg : String)
  | statusMsg (s : String)
  | postsArr (ps : List Post)
  deriving DecidableEq

/-- An HTTP response: status code and JSON body. -/
structure Resp where
  status : Nat
  body : RespBody
  deriving DecidableEq

/-- Everything one route call produces: the response (or the unhandled
exception that escaped), the driver flag afterwards, and the diagnostics
tags dumped during the call, in order. -/
structure RouteOut where
  resp : Except PyErr Resp
  driver : Bool
  tags : List String

/-- The waits of the `/comment` interaction sequence: whether navigation to
the post URL succeeds (line 250, outside the `try`), and whether each of the
three bounded waits of lines 254, 259 and 267 finds its element before the
25 second deadline. -/
structure CommentWorld where
  navOk : Bool
  triggerOk : Bool
  inputOk : Bool
  submitOk : Bool

/-- The hashtag a `/scrape` request asks for (line 226): field default
`"hiring"`, rendered with `str()` and normalised. -/
def hashtagOf (fields : List (String × JsonVal)) : String :=
  normalizeHashtag (pyStr ((lookupField fields "hashtag").getD (.jstr "hiring")))

/-- The effective cap a `/scrape` request passes to the harvest (lines
228-234). -/
def capOf (fields : List (String × JsonVal)) : Nat :=
  (effectiveMaxPosts (lookupField fields "max_posts")).toNat

/-- The tail of the `/scrape` handler (lines 236-241): convert the harvest
outcome into the response, 404 on an empty result, 200 otherwise. -/
def scrapeFinish (ir : InitResult) (hres : Option (List Post × List String)) :
    Option RouteOut :=
  match hres with
  | none => none
  | some (posts, stags) =>
    match posts with
    | [] => some ⟨.ok ⟨404, .errorMsg "no posts found"⟩, ir.driver, ir.tags ++ stags⟩
    | _ => some ⟨.ok ⟨200, .postsArr posts⟩, ir.driver, ir.tags ++ stags⟩

/-- Model of the `/scrape` route (lines 219-241).  `body` is the decoded
request body (`none` when `request.get_json()` itself raises on a non-JSON
body).  The harvest world is `pg`; `fuel` bounds how many loop passes we
observe, `none` meaning the harvest never returned. -/
def scrape (w : InitWorld) (driver0 : Bool) (pg : Page) (body : Option JsonVal)
    (fuel : Nat) : Option RouteOut :=
  let ir := initialize_browser w driver0
  if ir.ok = false then
    some ⟨.ok ⟨500, .errorMsg "browser init failed"⟩, ir.driver, ir.tags⟩
  else
    match body with
    | none => some ⟨.error .badRequest, ir.driver, ir.tags⟩
    | some bv =>
      match (if jsonTruthy bv then bv else .jobj []) with
      | .jobj fields =>
        scrapeFinish ir (scrape_hashtag pg ir.driver (hashtagOf fields) (capOf fields) fuel)
      | _ => some ⟨.error .attributeError, ir.driver, ir.tags⟩

/-- Model of the `/comment` route (lines 244-276).  `data["post_url"]` and
the navigation of line 250 run outside the `try`, so their exceptions
escape; inside the `try` only `TimeoutException` is caught, so the
`data["comment"]` lookup of line 263 also escapes when the field is missing
and typing raises when the field is not a string. -/
def comment (w : InitWorld) (driver0 : Bool) (cw : CommentWorld)
    (body : Option JsonVal) : RouteOut :=
  let ir := initialize_browser w driver0
  if ir.ok = false then
    ⟨.ok ⟨500, .errorMsg "browser init failed"⟩, ir.driver, ir.tags⟩
  else
    match body with
    | none => ⟨.error .badRequest, ir.driver, ir.tags⟩
    | some data =>
      match data with
      | .jobj fields =>
        match lookupField fields "post_url" with
        | none => ⟨.error (.keyError "post_url"), ir.driver, ir.tags⟩
        | some _ =>
          if cw.navOk = false then ⟨.error .navError, ir.driver, ir.tags⟩
          else if cw.triggerOk = false then
            ⟨.ok ⟨500, .statusMsg "failed"⟩, ir.driver, ir.tags ++ dump_debug ir.driver "comment_failed"⟩
          else if cw.inputOk = false then
            ⟨.ok ⟨500, .statusMsg "failed"⟩, ir.driver, ir.tags ++ dump_debug ir.driver "comment_failed"⟩
          else
            match lookupField fields "comment" with
            | none => ⟨.error (.keyError "comment"), ir.driver, ir.tags⟩
            | some (.jstr _) =>
              if cw.submitOk = false then
                ⟨.ok ⟨500, .statusMsg "failed"⟩, ir.driver, ir.tags ++ dump_debug ir.driver "comment_failed"⟩
              else ⟨.ok ⟨200, .statusMsg "success"⟩, ir.driver, ir.tags⟩
            | some _ => ⟨.error .typeError, ir.driver, ir.tags⟩
      | _ => ⟨.error .typeError, ir.driver, ir.tags⟩

/-- The clamp of line 234 keeps every effective cap inside `[1, 25]`. -/
lemma effectiveMaxPosts_bounds (mp : Option JsonVal) :
    1 ≤ effectiveMaxPosts mp ∧ effectiveMaxPosts mp ≤ 25 := by
  unfold effectiveMaxPosts
  omega

/-- C3 counterexample: the JSON string `"7"` is not an integer, yet
`int("7")` succeeds, so the effective cap is 7 and not the claimed fallback
of 5. -/
theorem max_posts_string_cex :
    effectiveMaxPosts (some (.jstr "7")) = 7 ∧
    effectiveMaxPosts (some (.jstr "7")) ≠ 5 := by
  constructor <;> decide

/-- C3 amended: the effective cap is `clamp(int(max_posts), 1, 25)` where
`int` is the Python integer coercion: integer inputs pass through and clamp
(zero or negative to 1, above 25 to 25); only inputs on which the coercion
raises (null, non-numeric strings, arrays, objects) fall back to 5; a
missing field defaults to 5; convertible non-integer inputs such as numeric
strings or booleans coerce instead of falling back.  The value is never
rejected: every input yields a cap in `[1, 25]`. -/
theorem effectiveMaxPosts_spec :
    (∀ z : Int, effectiveMaxPosts (some (.jint z)) = max 1 (min z 25)) ∧
    (∀ z : Int, z ≤ 0 → effectiveMaxPosts (some (.jint z)) = 1) ∧
    (∀ z : Int, 25 ≤ z → effectiveMaxPosts (some (.jint z)) = 25) ∧
    (∀ v : JsonVal, coerce_int v = none → effectiveMaxPosts (some v) = 5) ∧
    effectiveMaxPosts none = 5 ∧
    (∀ mp : Option JsonVal, 1 ≤ effectiveMaxPosts mp ∧ effectiveMaxPosts mp ≤ 25) := by
  refine ⟨fun z => rfl, ?_, ?_, ?_, rfl, effectiveMaxPosts_bounds⟩
  · intro z hz
    simp only [effectiveMaxPosts, maxPostsOf, coerce_int, Option.getD_some]
    omega
  · intro z hz
    simp only [effectiveMaxPosts, maxPostsOf, coerce_int, Option.getD_some]
    omega
  · intro v hv
    simp only [effectiveMaxPosts, maxPostsOf, hv, Option.getD_none]
    omega

/-- C3 amended witness: concrete inputs exercising the fallback and both
clamp directions. -/
theorem effectiveMaxPosts_spec_w :
    coerce_int JsonVal.jnull = none ∧
    effectiveMaxPosts (some JsonVal.jnull) = 5 ∧
    effectiveMaxPosts (some (JsonVal.jint 100)) = 25 ∧
    effectiveMaxPosts (some (JsonVal.jint 0)) = 1 :=
  ⟨rfl, effectiveMaxPosts_spec.2.2.2.1 JsonVal.jnull rfl,
    effectiveMaxPosts_spec.2.2.1 100 (by omega),
    effectiveMaxPosts_spec.2.1 0 (by omega)⟩

/-- C6: whenever no post-container candidate XPath matches anything while a
ready session handles the request, `/scrape` answers 404 with body
`{"error": "no posts found"}`, and the diagnostics dump runs exactly once
during the call, with tag `no_posts`. -/
theorem scrape_no_posts_404 (w : InitWorld) (driver0 : Bool) (pg : Page)
    (f : List (String × JsonVal)) (fuel : Nat)
    (hok : (initialize_browser w driver0).ok = true)
    (hmatch : ∀ xp ∈ POST_CONTAINER_XPATHS, pg.initialMatch xp = []) :
    scrape w driver0 pg (some (.jobj f)) fuel =
      some ⟨.ok ⟨404, .errorMsg "no posts found"⟩, true, ["no_posts"]⟩ := by
  obtain ⟨hdr, htg⟩ := initialize_browser_ok w driver0 hok
  have hch : chosenXpath pg = none := by
    unfold chosenXpath
    rw [List.find?_eq_none]
    intro x hx
    simp [hmatch x hx]
  have hsc : ∀ ht cap, scrape_hashtag pg true ht cap fuel = some ([], ["no_posts"]) := by
    intro ht cap
    unfold scrape_hashtag
    rw [hch]
    rfl
  rcases f with _ | ⟨p, rest⟩ <;>
    simp [scrape, scrapeFinish, hok, hdr, htg, jsonTruthy, hsc]

/-- A page on which no container XPath ever matches anything. -/
def pgEmpty : Page := ⟨fun _ => [], fun _ _ => []⟩

/-- C6 witness: concrete request against the empty page with a ready
session. -/
theorem scrape_no_posts_404_w :
    (initialize_browser w0 true).ok = true ∧
    scrape w0 true pgEmpty (some (.jobj [])) 1 =
      some ⟨.ok ⟨404, .errorMsg "no posts found"⟩, true, ["no_posts"]⟩ :=
  ⟨rfl, scrape_no_posts_404 w0 true pgEmpty [] 1 rfl (fun _ _ => rfl)⟩

/-- C7: whenever any of the three bounded waits of the comment interaction
sequence (trigger clickable, input present, submit clickable) misses its
deadline while the session is ready, navigation succeeded and both request
fields are present, `/comment` answers 500 with body `{"status": "failed"}`
and the diagnostics dump runs exactly once, with tag `comment_failed` — the
same response for all three causes, so they are indistinguishable to the
caller. -/
theorem comment_timeout_500 (w : InitWorld) (driver0 : Bool) (cw : CommentWorld)
    (fields : List (String × JsonVal)) (purl : JsonVal) (s : String)
    (hok : (initialize_browser w driver0).ok = true)
    (hp : lookupField fields "post_url" = some purl)
    (hc : lookupField fields "comment" = some (.jstr s))
    (hnav : cw.navOk = true)
    (hto : ¬(cw.triggerOk = true ∧ cw.inputOk = true ∧ cw.submitOk = true)) :
    comment w driver0 cw (some (.jobj fields)) =
      ⟨.ok ⟨500, .statusMsg "failed"⟩, true, ["comment_failed"]⟩ := by
  obtain ⟨hdr, htg⟩ := initialize_browser_ok w driver0 hok
  cases htr : cw.triggerOk <;> cases hin : cw.inputOk <;> cases hsub : cw.submitOk <;>
    simp_all [comment, dump_debug]

/-- World where the comment trigger never becomes clickable. -/
def cwTrigFail : CommentWorld := ⟨true, false, true, true⟩

/-- A well-formed comment request body. -/
def fields7 : List (String × JsonVal) :=
  [("post_url", .jstr "https://www.linkedin.com/feed/update/u1/"),
   ("comment", .jstr "hi")]

/-- C7 witness: the trigger wait timing out on a concrete request. -/
theorem comment_timeout_500_w :
    cwTrigFail.navOk = true ∧
    comment w0 true cwTrigFail (some (.jobj fields7)) =
      ⟨.ok ⟨500, .statusMsg "failed"⟩, true, ["comment_failed"]⟩ :=
  ⟨rfl, comment_timeout_500 w0 true cwTrigFail fields7
    (.jstr "https://www.linkedin.com/feed/update/u1/") "hi" rfl rfl rfl rfl
    (by decide)⟩

/-- C8: when the session credential token is not configured (and hence no
driver was ever assigned), every `/scrape` and every `/comment` request
answers 500 with body `{"error": "browser init failed"}`, independently of
the page, the request body, the fuel and the interaction world — the
harvesting and interaction logic is never reached. -/
theorem missing_token_500 (w : InitWorld) (hw : w.hasSessionId = false)
    (pg : Page) (body : Option JsonVal) (fuel : Nat)
    (cw : CommentWorld) (body2 : Option JsonVal) :
    scrape w false pg body fuel =
      some ⟨.ok ⟨500, .errorMsg "browser init failed"⟩, false, []⟩ ∧
    comment w false cw body2 =
      ⟨.ok ⟨500, .errorMsg "browser init failed"⟩, false, []⟩ := by
  have hinit : initialize_browser w false = ⟨false, false, [], 0⟩ := by
    unfold initialize_browser
    simp [hw]
  constructor <;> simp [scrape, comment, hinit]

/-- World without a configured credential token. -/
def wNoCred : InitWorld := ⟨false, true, true, fun _ _ => false⟩

/-- World where all comment interaction waits succeed. -/
def cwAllOk : CommentWorld := ⟨true, true, true, true⟩

/-- C8 witness: concrete requests without a credential token. -/
theorem missing_token_500_w :
    wNoCred.hasSessionId = false ∧
    scrape wNoCred false pgEmpty (some (.jobj [])) 1 =
      some ⟨.ok ⟨500, .errorMsg "browser init failed"⟩, false, []⟩ ∧
    comment wNoCred false cwAllOk (some (.jobj [])) =
      ⟨.ok ⟨500, .errorMsg "browser init failed"⟩, false, []⟩ :=
  ⟨rfl,
    (missing_token_500 wNoCred rfl pgEmpty (some (.jobj [])) 1 cwAllOk (some (.jobj []))).1,
    (missing_token_500 wNoCred rfl pgEmpty (some (.jobj [])) 1 cwAllOk (some (.jobj []))).2⟩

/-- C9 counterexample: a `/comment` request whose JSON object body lacks
`post_url` reaches `data["post_url"]` at line 250, outside the `try`, with a
ready session; the `KeyError` is not caught anywhere in the handler, so an
unhandled exception (a Flask stack trace, not one of the fixed JSON shapes)
crosses the HTTP boundary. -/
theorem comment_missing_field_cex :
    comment w0 true cwAllOk (some (.jobj [])) =
      ⟨.error (.keyError "post_url"), true, []⟩ := rfl

/-- The fixed JSON response shapes of the interface table. -/
def okShape (r : Resp) : Prop :=
  r = ⟨500, .errorMsg "browser init failed"⟩ ∨
  r = ⟨404, .errorMsg "no posts found"⟩ ∨
  (∃ ps, r = ⟨200, .postsArr ps⟩) ∨
  r = ⟨200, .statusMsg "success"⟩ ∨
  r = ⟨500, .statusMsg "failed"⟩

/-- C9 amended: responses stay within the fixed JSON shapes only on the
guarded paths — for `/scrape` whenever the body decodes to a JSON object,
and for `/comment` whenever the body is a JSON object carrying `post_url`
and a string `comment` and the navigation of line 250 succeeds.  Outside
those hypotheses (missing fields, non-object bodies, navigation failures
before the `try`) the handlers raise instead of responding. -/
theorem responses_in_shape :
    (∀ (w : InitWorld) (driver0 : Bool) (pg : Page) (f : List (String × JsonVal))
        (fuel : Nat) (out : RouteOut),
      scrape w driver0 pg (some (.jobj f)) fuel = some out →
      ∃ r, out.resp = .ok r ∧ okShape r) ∧
    (∀ (w : InitWorld) (driver0 : Bool) (cw : CommentWorld)
        (fields : List (String × JsonVal)) (purl : JsonVal) (s : String),
      lookupField fields "post_url" = some purl →
      lookupField fields "comment" = some (.jstr s) →
      cw.navOk = true →
      ∃ r, (comment w driver0 cw (some (.jobj fields))).resp = .ok r ∧ okShape r) := by
  constructor
  · intro w driver0 pg f fuel out hrun
    by_cases hok : (initialize_browser w driver0).ok = false
    · simp [scrape, hok] at hrun
      exact ⟨⟨500, .errorMsg "browser init failed"⟩, by rw [← hrun], Or.inl rfl⟩
    · obtain ⟨g, hg⟩ : ∃ g,
          (if jsonTruthy (.jobj f) then JsonVal.jobj f else JsonVal.jobj []) = JsonVal.jobj g := by
        by_cases h : jsonTruthy (.jobj f)
        · exact ⟨f, by simp [h]⟩
        · exact ⟨[], by simp [h]⟩
      simp only [scrape, hok] at hrun
      rw [hg] at hrun
      simp at hrun
      cases hsc : scrape_hashtag pg (initialize_browser w driver0).driver
          (hashtagOf g) (capOf g) fuel with
      | none =>
        rw [hsc] at hrun
        simp [scrapeFinish] at hrun
      | some pr =>
        obtain ⟨posts, stags⟩ := pr
        rw [hsc] at hrun
        cases posts with
        | nil =>
          simp only [scrapeFinish, Option.some.injEq] at hrun
          exact ⟨⟨404, .errorMsg "no posts found"⟩, by rw [← hrun], Or.inr (Or.inl rfl)⟩
        | cons q qs =>
          simp only [scrapeFinish, Option.some.injEq] at hrun
          exact ⟨⟨200, .postsArr (q :: qs)⟩, by rw [← hrun],
            Or.inr (Or.inr (Or.inl ⟨q :: qs, rfl⟩))⟩
  · intro w driver0 cw fields purl s hp hc hnav
    by_cases hok : (initialize_browser w driver0).ok = false
    · exact ⟨⟨500, .errorMsg "browser init failed"⟩, by simp [comment, hok], Or.inl rfl⟩
    · cases htr : cw.triggerOk with
      | false =>
        exact ⟨⟨500, .statusMsg "failed"⟩, by simp [comment, hok, hp, hnav, htr],
          Or.inr (Or.inr (Or.inr (Or.inr rfl)))⟩
      | true =>
        cases hin : cw.inputOk with
        | false =>
          exact ⟨⟨500, .statusMsg "failed"⟩, by simp [comment, hok, hp, hnav, htr, hin],
            Or.inr (Or.inr (Or.inr (Or.inr rfl)))⟩
        | true =>
          cases hsub : cw.submitOk with
          | false =>
            exact ⟨⟨500, .statusMsg "failed"⟩,
              by simp [comment, hok, hp, hc, hnav, htr, hin, hsub],
              Or.inr (Or.inr (Or.inr (Or.inr rfl)))⟩
          | true =>
            exact ⟨⟨200, .statusMsg "success"⟩,
              by simp [comment, hok, hp, hc, hnav, htr, hin, hsub],
              Or.inr (Or.inr (Or.inr (Or.inl rfl)))⟩

/-- C9 amended witness: a concrete well-formed `/comment` request produces a
response within the fixed shapes. -/
theorem responses_in_shape_w :
    ∃ r, (comment w0 true cwAllOk (some (.jobj fields7))).resp = Except.ok r ∧ okShape r :=
  responses_in_shape.2 w0 true cwAllOk fields7
    (.jstr "https://www.linkedin.com/feed/update/u1/") "hi" rfl rfl rfl

/-- C10 counterexample: with no credential token configured, `/scrape`
returns the 500 error response while the diagnostics tag list is empty —
the `InitFailure` path with no browser session invokes no dump at all
(line 92 returns without dumping, and `dump_debug` itself is a no-op
without a driver). -/
theorem no_dump_on_init_failure_cex :
    scrape wNoCred false pgEmpty (some (.jobj [])) 1 =
      some ⟨.ok ⟨500, .errorMsg "browser init failed"⟩, false, []⟩ := rfl

/-- Whenever the harvest loop returns, it returns exactly `cap` posts. -/
lemma scrapeLoop_length (pg : Page) (xp : String) (cap : Nat) :
    ∀ (fuel i : Nat) (posts : List Post) (seen : List String) (res : List Post),
      scrapeLoop pg xp cap fuel i posts seen = some res → res.length = cap := by
  intro fuel
  induction fuel with
  | zero =>
    intro i posts seen res h
    simp [scrapeLoop] at h
  | succ f ih =>
    intro i posts seen res h
    by_cases hlt : posts.length < cap
    · rw [scrapeLoop, if_pos hlt] at h
      exact ih _ _ _ _ h
    · rw [scrapeLoop, if_neg hlt] at h
      have h2 := Option.some.inj h
      subst h2
      simp only [List.length_take]
      omega

/-- With a positive cap, an empty harvest result can only come from the
`no_posts` branch, so its tags are exactly that dump. -/
lemma scrape_hashtag_nil (pg : Page) (drv : Bool) (ht : String) (cap fuel : Nat)
    (stags : List String) (hcap : 1 ≤ cap)
    (h : scrape_hashtag pg drv ht cap fuel = some ([], stags)) :
    stags = dump_debug drv "no_posts" := by
  unfold scrape_hashtag at h
  cases hch : chosenXpath pg with
  | none =>
    rw [hch] at h
    simp only [Option.some.injEq, Prod.mk.injEq] at h
    exact h.2.symm
  | some xp =>
    rw [hch] at h
    rw [Option.map_eq_some'] at h
    obtain ⟨ps, hps, hpair⟩ := h
    have hlen := scrapeLoop_length pg xp cap fuel 0 [] [] ps hps
    injection hpair with h1 h2
    subst h1
    simp at hlen
    omega

/-- Every effective cap is positive. -/
lemma capOf_pos (fields : List (String × JsonVal)) : 1 ≤ capOf fields := by
  unfold capOf
  have h := effectiveMaxPosts_bounds (lookupField fields "max_posts")
  omega

/-- C10 amended: every request that ends in an error response while a
browser session exists has invoked the diagnostics dump at least once
before the error is returned; but on the `InitFailure` paths where no
session handle exists (missing credential token, launch exception) the
error is returned with no dump at all. -/
theorem dump_before_error :
    (∀ (w : InitWorld) (driver0 : Bool) (pg : Page) (body : Option JsonVal)
        (fuel : Nat) (out : RouteOut) (r : Resp),
      scrape w driver0 pg body fuel = some out →
      out.resp = .ok r → r.status ≠ 200 → out.driver = true → out.tags ≠ []) ∧
    (∀ (w : InitWorld) (driver0 : Bool) (cw : CommentWorld)
        (body : Option JsonVal) (r : Resp),
      (comment w driver0 cw body).resp = .ok r → r.status ≠ 200 →
      (comment w driver0 cw body).driver = true →
      (comment w driver0 cw body).tags ≠ []) := by
  constructor
  · intro w driver0 pg body fuel out r hrun hresp hst hdrv
    by_cases hok : (initialize_browser w driver0).ok = false
    · simp [scrape, hok] at hrun
      subst hrun
      exact initialize_browser_fail_dump w driver0 hok hdrv
    · have hok' : (initialize_browser w driver0).ok = true := by simpa using hok
      obtain ⟨hdr, htg⟩ := initialize_browser_ok w driver0 hok'
      cases body with
      | none =>
        simp [scrape, hok] at hrun
        subst hrun
        simp at hresp
      | some bv =>
        obtain ⟨g, hg⟩ : ∃ g,
            (if jsonTruthy bv then bv else JsonVal.jobj []) = JsonVal.jobj g ∨
            ∃ e, scrape w driver0 pg (some bv) fuel =
              some ⟨.error e, (initialize_browser w driver0).driver,
                (initialize_browser w driver0).tags⟩ := by
          cases hdata : (if jsonTruthy bv then bv else JsonVal.jobj []) with
          | jobj g => exact ⟨g, Or.inl rfl⟩
          | jint z => exact ⟨[], Or.inr ⟨.attributeError, by simp [scrape, hok, hdata]⟩⟩
          | jstr s2 => exact ⟨[], Or.inr ⟨.attributeError, by simp [scrape, hok, hdata]⟩⟩
          | jbool b => exact ⟨[], Or.inr ⟨.attributeError, by simp [scrape, hok, hdata]⟩⟩
          | jnull => exact ⟨[], Or.inr ⟨.attributeError, by simp [scrape, hok, hdata]⟩⟩
          | jlist xs => exact ⟨[], Or.inr ⟨.attributeError, by simp [scrape, hok, hdata]⟩⟩
        rcases hg with hg | ⟨e, he⟩
        · simp only [scrape, hok] at hrun
          rw [hg] at hrun
          simp at hrun
          cases hsc : scrape_hashtag pg (initialize_browser w driver0).driver
              (hashtagOf g) (capOf g) fuel with
          | none =>
            rw [hsc] at hrun
            simp [scrapeFinish] at hrun
          | some pr =>
            obtain ⟨posts, stags⟩ := pr
            rw [hsc] at hrun
            cases posts with
            | nil =>
              have hstags := scrape_hashtag_nil pg _ (hashtagOf g) (capOf g) fuel stags
                (capOf_pos g) hsc
              simp only [scrapeFinish, Option.some.injEq] at hrun
              subst hrun
              simp only at hdrv ⊢
              rw [htg, hstags, hdrv]
              simp [dump_debug]
            | cons q qs =>
              simp only [scrapeFinish, Option.some.injEq] at hrun
              subst hrun
              have hr : (⟨200, .postsArr (q :: qs)⟩ : Resp) = r := Except.ok.inj hresp
              rw [← hr] at hst
              simp at hst
        · rw [he] at hrun
          have h3 := Option.some.inj hrun
          subst h3
          simp at hresp
  · intro w driver0 cw body r hresp hst hdrv
    by_cases hok : (initialize_browser w driver0).ok = false
    · have hco : comment w driver0 cw body =
          ⟨.ok ⟨500, .errorMsg "browser init failed"⟩,
            (initialize_browser w driver0).driver,
            (initialize_browser w driver0).tags⟩ := by
        simp [comment, hok]
      rw [hco] at hdrv ⊢
      exact initialize_browser_fail_dump w driver0 hok hdrv
    · have hok' : (initialize_browser w driver0).ok = true := by simpa using hok
      obtain ⟨hdr, htg⟩ := initialize_browser_ok w driver0 hok'
      cases body with
      | none =>
        have hco : comment w driver0 cw none =
            ⟨.error .badRequest, (initialize_browser w driver0).driver,
              (initialize_browser w driver0).tags⟩ := by
          simp [comment, hok]
        rw [hco] at hresp
        simp at hresp
      | some data =>
        cases data with
        | jobj fields =>
          cases hlp : lookupField fields "post_url" with
          | none =>
            have hco : comment w driver0 cw (some (.jobj fields)) =
                ⟨.error (.keyError "post_url"), (initialize_browser w driver0).driver,
                  (initialize_browser w driver0).tags⟩ := by
              simp [comment, hok, hlp]
            rw [hco] at hresp
            simp at hresp
          | some purl =>
            cases hnv : cw.navOk with
            | false =>
              have hco : comment w driver0 cw (some (.jobj fields)) =
                  ⟨.error .navError, (initialize_browser w driver0).driver,
                    (initialize_browser w driver0).tags⟩ := by
                simp [comment, hok, hlp, hnv]
              rw [hco] at hresp
              simp at hresp
            | true =>
              cases htr : cw.triggerOk with
              | false =>
                have hco : comment w driver0 cw (some (.jobj fields)) =
                    ⟨.ok ⟨500, .statusMsg "failed"⟩,
                      (initialize_browser w driver0).driver,
                      (initialize_browser w driver0).tags ++
                        dump_debug (initialize_browser w driver0).driver "comment_failed"⟩ := by
                  simp [comment, hok, hlp, hnv, htr]
                rw [hco] at hdrv ⊢
                simp only at hdrv ⊢
                rw [htg, hdrv]
                simp [dump_debug]
              | true =>
                cases hin : cw.inputOk with
                | false =>
                  have hco : comment w driver0 cw (some (.jobj fields)) =
                      ⟨.ok ⟨500, .statusMsg "failed"⟩,
                        (initialize_browser w driver0).driver,
                        (initialize_browser w driver0).tags ++
                          dump_debug (initialize_browser w driver0).driver "comment_failed"⟩ := by
                    simp [comment, hok, hlp, hnv, htr, hin]
                  rw [hco] at hdrv ⊢
                  simp only at hdrv ⊢
                  rw [htg, hdrv]
                  simp [dump_debug]
                | true =>
                  cases hlc : lookupField fields "comment" with
                  | none =>
                    have hco : comment w driver0 cw (some (.jobj fields)) =
                        ⟨.error (.keyError "comment"),
                          (initialize_browser w driver0).driver,
                          (initialize_browser w driver0).tags⟩ := by
                      simp [comment, hok, hlp, hnv, htr, hin, hlc]
                    rw [hco] at hresp
                    simp at hresp
                  | some cv =>
                    cases cv with
                    | jstr s2 =>
                      cases hsub : cw.submitOk with
                      | false =>
                        have hco : comment w driver0 cw (some (.jobj fields)) =
                            ⟨.ok ⟨500, .statusMsg "failed"⟩,
                              (initialize_browser w driver0).driver,
                              (initialize_browser w driver0).tags ++
                                dump_debug (initialize_browser w driver0).driver
                                  "comment_failed"⟩ := by
                          simp [comment, hok, hlp, hnv, htr, hin, hlc, hsub]
                        rw [hco] at hdrv ⊢
                        simp only at hdrv ⊢
                        rw [htg, hdrv]
                        simp [dump_debug]
                      | true =>
                        have hco : comment w driver0 cw (some (.jobj fields)) =
                            ⟨.ok ⟨200, .statusMsg "success"⟩,
                              (initialize_browser w driver0).driver,
                              (initialize_browser w driver0).tags⟩ := by
                          simp [comment, hok, hlp, hnv, htr, hin, hlc, hsub]
                        rw [hco] at hresp
                        have hr : (⟨200, .statusMsg "success"⟩ : Resp) = r :=
                          Except.ok.inj hresp
                        rw [← hr] at hst
                        simp at hst
                    | jint z =>
                      have hco : comment w driver0 cw (some (.jobj fields)) =
                          ⟨.error .typeError, (initialize_browser w driver0).driver,
                            (initialize_browser w driver0).tags⟩ := by
                        simp [comment, hok, hlp, hnv, htr, hin, hlc]
                      rw [hco] at hresp
                      simp at hresp
                    | jbool b =>
                      have hco : comment w driver0 cw (some (.jobj fields)) =
                          ⟨.error .typeError, (initialize_browser w driver0).driver,
                            (initialize_browser w driver0).tags⟩ := by
                        simp [comment, hok, hlp, hnv, htr, hin, hlc]
                      rw [hco] at hresp
                      simp at hresp
                    | jnull =>
                      have hco : comment w driver0 cw (some (.jobj fields)) =
                          ⟨.error .typeError, (initialize_browser w driver0).driver,
                            (initialize_browser w driver0).tags⟩ := by
                        simp [comment, hok, hlp, hnv, htr, hin, hlc]
                      rw [hco] at hresp
                      simp at hresp
                    | jlist xs =>
                      have hco : comment w driver0 cw (some (.jobj fields)) =
                          ⟨.error .typeError, (initialize_browser w driver0).driver,
                            (initialize_browser w driver0).tags⟩ := by
                        simp [comment, hok, hlp, hnv, htr, hin, hlc]
                      rw [hco] at hresp
                      simp at hresp
                    | jobj g2 =>
                      have hco : comment w driver0 cw (some (.jobj fields)) =
                          ⟨.error .typeError, (initialize_browser w driver0).driver,
                            (initialize_browser w driver0).tags⟩ := by
                        simp [comment, hok, hlp, hnv, htr, hin, hlc]
                      rw [hco] at hresp
                      simp at hresp
        | jint z =>
          have hco : comment w driver0 cw (some (.jint z)) =
              ⟨.error .typeError, (initialize_browser w driver0).driver,
                (initialize_browser w driver0).tags⟩ := by
            simp [comment, hok]
          rw [hco] at hresp
          simp at hresp
        | jstr s2 =>
          have hco : comment w driver0 cw (some (.jstr s2)) =
              ⟨.error .typeError, (initialize_browser w driver0).driver,
                (initialize_browser w driver0).tags⟩ := by
            simp [comment, hok]
          rw [hco] at hresp
          simp at hresp
        | jbool b =>
          have hco : comment w driver0 cw (some (.jbool b)) =
              ⟨.error .typeError, (initialize_browser w driver0).driver,
                (initialize_browser w driver0).tags⟩ := by
            simp [comment, hok]
          rw [hco] at hresp
          simp at hresp
        | jnull =>
          have hco : comment w driver0 cw (some .jnull) =
              ⟨.error .typeError, (initialize_browser w driver0).driver,
                (initialize_browser w driver0).tags⟩ := by
            simp [comment, hok]
          rw [hco] at hresp
          simp at hresp
        | jlist xs =>
          have hco : comment w driver0 cw (some (.jlist xs)) =
              ⟨.error .typeError, (initialize_browser w driver0).driver,
                (initialize_browser w driver0).tags⟩ := by
            simp [comment, hok]
          rw [hco] at hresp
          simp at hresp

/-- C10 amended witness: the concrete 404 request of the no-posts scenario
ends in an error response with the driver assigned, and its tag list is
nonempty. -/
theorem dump_before_error_w :
    (⟨Except.ok ⟨404, RespBody.errorMsg "no posts found"⟩, true,
      ["no_posts"]⟩ : RouteOut).tags ≠ [] :=
  dump_before_error.1 w0 true pgEmpty (some (.jobj [])) 1
    ⟨.ok ⟨404, .errorMsg "no posts found"⟩, true, ["no_posts"]⟩
    ⟨404, .errorMsg "no posts found"⟩ rfl rfl (by decide) rfl

end LinkedinScript
